import Mathlib

/-!
Shallow embedding of the `kitagentsdk` telemetry pipeline
(`src/kitagentsdk/kit.py`, `src/kitagentsdk/callbacks.py`,
`src/kitagentsdk/agent.py`).

Queues are embedded as Lean lists (head = oldest element, matching FIFO
`queue.Queue` pop order).  Network traffic is embedded as a list of
`NetCall` values: a `NetCall` in the output of a function means the code
*attempts* that outbound HTTP request (whether the request succeeds is
irrelevant to queue state, since every flush drops items after attempting
them).  Console output (`print(..., file=sys.stderr)` / `print(...)`) is
embedded as a list of strings.
-/

namespace KitAgentSdk

/-- A metric sample as enqueued by `KitClient.log_metric`
(`kit.py` line 178: `{"step": step, "name": name, "value": value}`). -/
structure MetricSample where
  step : Int
  name : String
  value : Float

/-- An outbound HTTP request attempted by the client (`requests.post` /
`requests.get` in `kit.py`). -/
inductive NetCall where
  | postMetrics (runId : String) (batch : List MetricSample)
  | postLog (runId : String) (message : String)
  | postProgress (runId : String) (step : Int)
  | postEvent (runId : String) (event status : String)
  | getCommand (runId : String)

/-- `KitClient._flush_metrics` (`kit.py` lines 111-124): if the metrics
queue is empty, return without any call; otherwise pop up to 100 samples
into `batch` and attempt a single `POST /api/telemetry/metrics` with the
batch.  A send failure is printed and swallowed; the batch is dropped
either way, so the queue state after the flush is `q.drop 100`.
Returns (attempted calls, remaining queue). -/
def flushMetrics (runId : String) (q : List MetricSample) :
    List NetCall × List MetricSample :=
  if q.isEmpty then ([], q)
  else ([NetCall.postMetrics runId (q.take 100)], q.drop 100)

/-- `KitClient._flush_logs` (`kit.py` lines 126-135): loop while the log
queue is nonempty; pop the head message and attempt one
`POST /api/telemetry/log` for it; a send failure prints
`[SDK-ERR] Log push failed` and the loop continues with the next message
(the failed message is not re-queued).  `sendOk` models which sends
succeed.  Returns (attempted calls in order, console error lines,
remaining queue — empty, because the loop runs until the queue is). -/
def flushLogs (runId : String) (sendOk : String → Bool) :
    List String → List NetCall × List String × List String
  | [] => ([], [], [])
  | msg :: rest =>
      let tail := flushLogs runId sendOk rest
      (NetCall.postLog runId msg :: tail.1,
       (if sendOk msg then [] else ["[SDK-ERR] Log push failed"]) ++ tail.2.1,
       tail.2.2)

/-- `KitClient._flush_progress` (`kit.py` lines 137-149): pop every queued
step, keeping only the last one popped (`latest_step`); if one exists,
attempt a single `POST /api/telemetry/progress` with it.  Returns
(attempted calls, remaining queue — always empty, everything was popped). -/
def flushProgress (runId : String) (q : List Int) :
    List NetCall × List Int :=
  match q.getLast? with
  | none => ([], [])
  | some s => ([NetCall.postProgress runId s], [])

/-- Remote control command, the decoded result of
`KitClient._poll_command` (`kit.py` lines 91-109). -/
inductive Command where
  | stop
  | pause
  | resume
deriving DecidableEq, Repr

/-- The two signal files in the run's working directory:
`STOP_REQUESTED` and `PAUSE_REQUESTED` (`kit.py` lines 48-49,
`callbacks.py` lines 32-33).  `true` = the file exists. -/
structure SignalFlags where
  stopFile : Bool
  pauseFile : Bool
deriving DecidableEq, Repr

/-- Command application step of `KitClient._telemetry_worker`
(`kit.py` lines 60-75): given the polled command and the current signal
files, produce the new signal files, the console lines printed, and the
messages enqueued via `self.log_message`.  Each branch tests file
existence first, so a repeated command is a silent no-op. -/
def applyCommand (cmd : Option Command) (fl : SignalFlags) :
    SignalFlags × List String × List String :=
  match cmd with
  | some Command.stop =>
      if fl.stopFile = false then
        ({ fl with stopFile := true },
         ["--- [SDK] Command Received: STOP. Creating signal file. ---"],
         ["Received remote STOP command.\n"])
      else (fl, [], [])
  | some Command.pause =>
      if fl.pauseFile = false then
        ({ fl with pauseFile := true },
         ["--- [SDK] Command Received: PAUSE. Creating signal file. ---"],
         ["Received remote PAUSE command.\n"])
      else (fl, [], [])
  | some Command.resume =>
      if fl.pauseFile = true then
        ({ fl with pauseFile := false },
         ["--- [SDK] Command Received: RESUME. Removing signal file. ---"],
         ["Received remote RESUME command.\n"])
      else (fl, [], [])
  | none => (fl, [], [])

/-- `KitClient.__init__` configuration (`kit.py` lines 17-31): `enabled`
is `true` iff both `KIT_API_ENDPOINT` and `KIT_API_KEY` are set; `runId`
is `KIT_RUN_ID` when set and nonempty (a Python falsy run id counts as
absent). -/
structure ClientConfig where
  enabled : Bool
  runId : Option String
deriving Repr

/-- State of a `KitClient`: configuration, the three telemetry queues and
the `_stop_event` flag.  The queues and `_stop_event` are created only in
online mode (`kit.py` lines 35-44); in offline mode they stay unused, so
carrying them unconditionally loses nothing. -/
structure KitState where
  cfg : ClientConfig
  metricsQueue : List MetricSample
  logQueue : List String
  progressQueue : List Int
  stopEventSet : Bool

/-- The repeated guard `if self.enabled and self.run_id:` of the telemetry
methods (`kit.py` lines 171, 177, 181, 185). -/
def KitState.online (st : KitState) : Bool :=
  st.cfg.enabled && st.cfg.runId.isSome

/-- The run id string used in payloads (meaningful only online). -/
def runIdStr (c : ClientConfig) : String :=
  c.runId.getD ""

/-- `KitClient.log_message` (`kit.py` lines 170-174): online, enqueue the
message; otherwise `print(message)`.  Returns (new state, attempted
network calls, console lines). -/
def log_message (st : KitState) (msg : String) :
    KitState × List NetCall × List String :=
  if st.online then
    ({ st with logQueue := st.logQueue ++ [msg] }, [], [])
  else
    (st, [], [msg])

/-- `KitClient.log_metric` (`kit.py` lines 176-178): online, enqueue the
sample dict; otherwise there is no `else` branch — the call does nothing. -/
def log_metric (st : KitState) (name : String) (step : Int) (value : Float) :
    KitState × List NetCall × List String :=
  if st.online then
    ({ st with metricsQueue := st.metricsQueue ++ [⟨step, name, value⟩] }, [], [])
  else
    (st, [], [])

/-- `KitClient.log_progress` (`kit.py` lines 180-182): online, enqueue the
step; otherwise there is no `else` branch — the call does nothing. -/
def log_progress (st : KitState) (step : Int) :
    KitState × List NetCall × List String :=
  if st.online then
    ({ st with progressQueue := st.progressQueue ++ [step] }, [], [])
  else
    (st, [], [])

/-- `KitClient.log_event` (`kit.py` lines 184-194): online, print a
console line and attempt one immediate unbatched
`POST /api/telemetry/event/{run_id}` (a failure is printed and swallowed);
offline, print `[EVENT] name (status)` only. -/
def log_event (st : KitState) (name status : String) :
    KitState × List NetCall × List String :=
  if st.online then
    (st, [NetCall.postEvent (runIdStr st.cfg) name status],
     [s!"--- [SDK] Event: {name} ({status}) ---"])
  else
    (st, [], [s!"[EVENT] {name} ({status})"])

/-- `KitClient.shutdown` (`kit.py` lines 151-166): guarded by
`hasattr(self, _stop_event) and not self._stop_event.is_set()` — the
attribute exists exactly when the client was constructed online, so the
body runs only on the first online invocation.  It sets `_stop_event`
(stopping the worker loop), joins the worker with a 3 s timeout, then runs
one explicit synchronous `_flush_metrics`; `_flush_logs`;
`_flush_progress` on the calling thread.  Returns (new state, attempted
network calls, console error lines from the log flush). -/
def shutdown (sendOk : String → Bool) (st : KitState) :
    KitState × List NetCall × List String :=
  if st.online && !st.stopEventSet then
    let rid := runIdStr st.cfg
    let m := flushMetrics rid st.metricsQueue
    let l := flushLogs rid sendOk st.logQueue
    let p := flushProgress rid st.progressQueue
    ({ st with stopEventSet := true,
               metricsQueue := m.2, logQueue := l.2.2, progressQueue := p.2 },
     m.1 ++ l.1 ++ p.1, l.2.1)
  else
    (st, [], [])

/-!
The step gate `KitLogCallback._on_step` (`callbacks.py` lines 64-107),
called once per unit of work by the training loop.  Observable actions are
embedded as an ordered `StepAction` trace; the filesystem signal flags are
sampled as booleans (`pausePresent` at the pause check of line 86,
`stopPresent` at the stop check of line 99); the blocking
`while pause_file.exists(): time.sleep(1)` wait of lines 91-92 is embedded
as a `pauseSleep` action recording how many 1 s sleeps elapsed before the
flag was observed clear.  `BaseAgent.report_progress` (`agent.py` lines
57-63) enqueues the step and then writes `progress.log` with no exception
handler anywhere on the path, so the write is embedded as fallible
(`writeOk`) and `_on_step` as `Except`-valued: `.error` means the call
raised to the training loop.
-/

/-- `relative_step = max(0, self.num_timesteps - self.offset)`
(`callbacks.py` line 72). -/
def relativeStep (numTimesteps offset : Nat) : Int :=
  max 0 ((numTimesteps : Int) - (offset : Int))

/-- An observable action of one `_on_step` call, in program order. -/
inductive StepAction where
  /-- `env.set_training_progress(self.num_timesteps, total_timesteps)`
  (`callbacks.py` line 69). -/
  | setEnvProgress (numTimesteps totalTimesteps : Nat)
  /-- `self.agent.report_progress(relative_step)` (`callbacks.py` line 74):
  enqueues the relative step for the backend. -/
  | progressReport (step : Int)
  /-- The 1 % console progress line (`callbacks.py` line 82). -/
  | consoleProgress (pct : Int)
  /-- `self.agent.log(...)` (`callbacks.py` lines 88, 95, 103). -/
  | logLine (msg : String)
  /-- `self.agent.emit_event(name, status)` (`callbacks.py` lines 89, 96,
  104). -/
  | emitEvent (name status : String)
  /-- The blocking pause wait (`callbacks.py` lines 91-92): `seconds`
  iterations of `time.sleep(1)` before `PAUSE_REQUESTED` disappeared. -/
  | pauseSleep (seconds : Nat)
deriving DecidableEq, Repr

/-- Input state of one `_on_step` call. -/
structure StepState where
  /-- `self.agent` after `_init_agent` — `none` when the environment
  exposes no kit client. -/
  agentPresent : Bool
  /-- `self.num_timesteps` (global SB3 counter). -/
  numTimesteps : Nat
  /-- `self.locals[total_timesteps]`. -/
  totalTimesteps : Nat
  /-- `self.offset`, the stage offset passed to the constructor. -/
  offset : Nat
  /-- `self._last_logged_pct` (initialised to -1). -/
  lastLoggedPct : Int
  /-- `PAUSE_REQUESTED` exists at the check of `callbacks.py` line 86. -/
  pausePresent : Bool
  /-- Number of 1 s sleeps until the pause flag is observed clear. -/
  pauseWait : Nat
  /-- `STOP_REQUESTED` exists at the check of `callbacks.py` line 99. -/
  stopPresent : Bool
  /-- `getattr(self.model, 'n_steps', 2048)`: `none` when the model has no
  `n_steps` attribute. -/
  nSteps : Option Nat
  /-- Whether the `progress.log` write of `agent.py` lines 61-63
  succeeds. -/
  writeOk : Bool
deriving Repr

/-- Integer progress percentage (`callbacks.py` line 80):
`int((num_timesteps / total_ts) * 100)`; both operands are nonnegative, so
truncation coincides with this natural-number division. -/
def stepPct (s : StepState) : Int :=
  ((s.numTimesteps * 100 / s.totalTimesteps : Nat) : Int)

/-- Console 1 % progress block (`callbacks.py` lines 77-83): on
`total_ts > 0`, if the percentage rose above `_last_logged_pct`, print one
line and record the new percentage.  Returns (actions, new
`_last_logged_pct`). -/
def pctActions (s : StepState) : List StepAction × Int :=
  if 0 < s.totalTimesteps then
    if s.lastLoggedPct < stepPct s then
      ([StepAction.consoleProgress (stepPct s)], stepPct s)
    else ([], s.lastLoggedPct)
  else ([], s.lastLoggedPct)

/-- Progress-report block (`callbacks.py` lines 72-74): only when an agent
is attached. -/
def progressActions (s : StepState) : List StepAction :=
  if s.agentPresent then
    [StepAction.progressReport (relativeStep s.numTimesteps s.offset)]
  else []

/-- Pause block (`callbacks.py` lines 86-96): log + PAUSED event (agent
only), the blocking sleep-poll wait, then log + RESUMED event (agent
only). -/
def pauseActions (agentPresent : Bool) (wait numTimesteps : Nat) :
    List StepAction :=
  (if agentPresent then
    [StepAction.logLine s!"Pause requested at step {numTimesteps}. Holding execution...",
     StepAction.emitEvent "TRAINING_PAUSED" "warning"]
   else []) ++
  [StepAction.pauseSleep wait] ++
  (if agentPresent then
    [StepAction.logLine "Resume requested. Continuing training...",
     StepAction.emitEvent "TRAINING_RESUMED" "info"]
   else [])

/-- Graceful-stop block (`callbacks.py` lines 102-104), run when the stop
flag is present and the step is boundary-aligned. -/
def stopActions (agentPresent : Bool) (numTimesteps : Nat) :
    List StepAction :=
  if agentPresent then
    [StepAction.logLine s!"Graceful stop requested. Stopping training at step {numTimesteps}.",
     StepAction.emitEvent "TRAINING_STOPPED_GRACEFULLY" "warning"]
  else []

/-- The actions of `_on_step` that precede the graceful-stop check
(`callbacks.py` lines 67-96), in program order: env progress update,
agent progress report, console 1 % logging, pause block. -/
def stepBase (s : StepState) : List StepAction :=
  [StepAction.setEnvProgress s.numTimesteps s.totalTimesteps] ++
  progressActions s ++
  (pctActions s).1 ++
  (if s.pausePresent = true then
    pauseActions s.agentPresent s.pauseWait s.numTimesteps
   else [])

/-- `KitLogCallback._on_step` (`callbacks.py` lines 64-107).  Program
order: env progress update; agent progress report (whose `progress.log`
write may raise — nothing on the path catches, so the exception
propagates and the remaining blocks never run); console 1 % logging;
pause block; graceful-stop check `num_timesteps % n_steps == 0` with
`n_steps = getattr(model, 'n_steps', 2048)`.  Returns
`(continue?, action trace, new _last_logged_pct)` or the propagated
exception. -/
def onStep (s : StepState) : Except String (Bool × List StepAction × Int) :=
  if s.agentPresent = true ∧ s.writeOk = false then
    Except.error "IOError: failed to write progress.log"
  else if s.stopPresent = true ∧ s.numTimesteps % s.nSteps.getD 2048 = 0 then
    Except.ok (false, stepBase s ++ stopActions s.agentPresent s.numTimesteps,
      (pctActions s).2)
  else
    Except.ok (true, stepBase s, (pctActions s).2)

/-- The `continue` boolean returned to the training loop, when `_on_step`
returns normally. -/
def stepContinue (s : StepState) : Option Bool :=
  match onStep s with
  | Except.ok r => some r.1
  | Except.error _ => none

/-- The action trace of a normally-returning `_on_step` call. -/
def stepTrace (s : StepState) : List StepAction :=
  match onStep s with
  | Except.ok r => r.2.1
  | Except.error _ => []

/-!  Concrete instances used to evaluate the model on explicit inputs.  -/

/-- A client with credentials but no run id (`KIT_RUN_ID` unset): offline
mode of `kit.py` line 35. -/
def offKit : KitState :=
  { cfg := { enabled := true, runId := none },
    metricsQueue := [], logQueue := [], progressQueue := [],
    stopEventSet := false }

/-- A step-gate state in which both `PAUSE_REQUESTED` and `STOP_REQUESTED`
exist at the same boundary-aligned step (step 30, `n_steps = 10`), with an
agent attached; the pause flag clears after two 1 s polls. -/
def bothFlagsState : StepState :=
  { agentPresent := true, numTimesteps := 30, totalTimesteps := 100,
    offset := 0, lastLoggedPct := -1, pausePresent := true, pauseWait := 2,
    stopPresent := true, nSteps := some 10, writeOk := true }

/-- A step-gate state whose `progress.log` write fails (e.g. the output
directory became unwritable), with an agent attached and no signal
flags. -/
def failingWriteState : StepState :=
  { agentPresent := true, numTimesteps := 5, totalTimesteps := 100,
    offset := 0, lastLoggedPct := -1, pausePresent := false, pauseWait := 0,
    stopPresent := false, nSteps := some 10, writeOk := false }

/-- A step-gate state at step `t` with `STOP_REQUESTED` present,
`n_steps = 10`, no pause flag, agent attached, writes succeeding. -/
def stopStateAt (t : Nat) : StepState :=
  { agentPresent := true, numTimesteps := t, totalTimesteps := 100,
    offset := 0, lastLoggedPct := 200, pausePresent := false, pauseWait := 0,
    stopPresent := true, nSteps := some 10, writeOk := true }

/-- A step-gate state whose stage offset (50) exceeds the current global
timestep count (30). -/
def offsetAheadState : StepState :=
  { agentPresent := true, numTimesteps := 30, totalTimesteps := 100,
    offset := 50, lastLoggedPct := 200, pausePresent := false, pauseWait := 0,
    stopPresent := false, nSteps := some 10, writeOk := true }

/-- An online client with 101 queued metric samples (steps 0..100) and no
other queued telemetry, before shutdown. -/
def bigMetricsState : KitState :=
  { cfg := { enabled := true, runId := some "r" },
    metricsQueue := (List.range 101).map (fun i => ⟨(i : Int), "m", 0.5⟩),
    logQueue := [], progressQueue := [], stopEventSet := false }

/-- An online client with two queued log lines and three queued progress
updates, before shutdown. -/
def queuedKitState : KitState :=
  { cfg := { enabled := true, runId := some "r" },
    metricsQueue := [], logQueue := ["a", "b"], progressQueue := [5, 12, 19],
    stopEventSet := false }

end KitAgentSdk

namespace KitAgentSdk

/-! ## Helper lemmas (shared across claims) -/

/-- A log flush attempts exactly one call per queued entry, in submission
order. -/
theorem flushLogs_calls (runId : String) (sendOk : String → Bool)
    (q : List String) :
    (flushLogs runId sendOk q).1 = q.map (NetCall.postLog runId) := by
  induction q with
  | nil => rfl
  | cons a l ih => simp [flushLogs, ih]

/-- A log flush leaves the queue empty. -/
theorem flushLogs_drains (runId : String) (sendOk : String → Bool)
    (q : List String) :
    (flushLogs runId sendOk q).2.2 = [] := by
  induction q with
  | nil => rfl
  | cons a l ih => simp [flushLogs, ih]

/-- A log flush prints one error line per failed send. -/
theorem flushLogs_errs (runId : String) (sendOk : String → Bool)
    (q : List String) :
    (flushLogs runId sendOk q).2.1.length =
      (q.filter (fun m => !sendOk m)).length := by
  induction q with
  | nil => rfl
  | cons a l ih =>
      by_cases h : sendOk a <;> simp [flushLogs, h, ih, List.filter_cons]

/-- A metrics flush leaves exactly the samples beyond the first 100. -/
theorem flushMetrics_rem (runId : String) (q : List MetricSample) :
    (flushMetrics runId q).2 = q.drop 100 := by
  unfold flushMetrics
  by_cases h : q.isEmpty
  · rw [if_pos h, List.isEmpty_iff.mp h]
    rfl
  · rw [if_neg h]

/-- A progress flush empties the queue. -/
theorem flushProgress_rem (runId : String) (q : List Int) :
    (flushProgress runId q).2 = [] := by
  unfold flushProgress
  cases q.getLast? <;> rfl

/-- A normal `_on_step` return on the aligned-stop path. -/
theorem onStep_ok_stop (s : StepState)
    (h1 : ¬(s.agentPresent = true ∧ s.writeOk = false))
    (h2 : s.stopPresent = true ∧ s.numTimesteps % s.nSteps.getD 2048 = 0) :
    onStep s = Except.ok
      (false, stepBase s ++ stopActions s.agentPresent s.numTimesteps,
       (pctActions s).2) := by
  unfold onStep
  rw [if_neg h1, if_pos h2]

/-- A normal `_on_step` return on the continue path. -/
theorem onStep_ok_cont (s : StepState)
    (h1 : ¬(s.agentPresent = true ∧ s.writeOk = false))
    (h2 : ¬(s.stopPresent = true ∧ s.numTimesteps % s.nSteps.getD 2048 = 0)) :
    onStep s = Except.ok (true, stepBase s, (pctActions s).2) := by
  unfold onStep
  rw [if_neg h1, if_neg h2]

/-! ## Claim C5 -/

/-- Claim C5: progress flushing collapses — one flush makes at most one
outbound call; with an empty queue it makes none and with a nonempty queue
it transmits exactly the most recently enqueued step, emptying the
queue. -/
theorem flushProgress_collapses (runId : String) (q : List Int) :
    (flushProgress runId q).1.length ≤ 1 ∧
    (q = [] → flushProgress runId q = ([], [])) ∧
    (∀ l x, q = l ++ [x] →
      flushProgress runId q = ([NetCall.postProgress runId x], [])) := by
  refine ⟨?_, ?_, ?_⟩
  · unfold flushProgress
    cases q.getLast? <;> simp
  · intro h; subst h; rfl
  · intro l x h
    subst h
    unfold flushProgress
    rw [List.getLast?_concat]

/-- Witness for C5: updates [5, 12, 19] enqueued between two flushes yield
exactly one outbound call, transmitting step 19. -/
theorem flushProgress_collapses_witness :
    flushProgress "r" [5, 12, 19] = ([NetCall.postProgress "r" 19], []) :=
  (flushProgress_collapses "r" [5, 12, 19]).2.2 [5, 12] 19 rfl

/-! ## Claim C7 -/

/-- Claim C7: a metrics flush makes at most one outbound call; with an
empty queue it is a no-op, and otherwise it sends the first at most 100
queued samples in one batch, leaving the rest queued for the next
cycle. -/
theorem flushMetrics_caps_batch (runId : String) (q : List MetricSample) :
    (flushMetrics runId q).1.length ≤ 1 ∧
    (q = [] → flushMetrics runId q = ([], [])) ∧
    (q ≠ [] →
      (flushMetrics runId q).1 = [NetCall.postMetrics runId (q.take 100)] ∧
      (q.take 100).length ≤ 100 ∧
      (flushMetrics runId q).2 = q.drop 100 ∧
      q.take 100 ++ (flushMetrics runId q).2 = q) := by
  refine ⟨?_, ?_, ?_⟩
  · unfold flushMetrics
    by_cases h : q.isEmpty <;> simp [h]
  · intro h; subst h; rfl
  · intro h
    have hne : q.isEmpty = false := by
      cases q with
      | nil => exact absurd rfl h
      | cons a l => rfl
    refine ⟨?_, ?_, flushMetrics_rem runId q, ?_⟩
    · unfold flushMetrics
      rw [hne]
      simp
    · rw [List.length_take]
      exact min_le_left _ _
    · rw [flushMetrics_rem runId q]
      exact List.take_append_drop 100 q

/-- Witness for C7: the two-sample queue of the end-to-end scenario is
flushed in one batch call, leaving nothing queued. -/
theorem flushMetrics_caps_batch_witness :
    ([(⟨10, "loss", 0.5⟩ : MetricSample), ⟨20, "loss", 0.4⟩] ≠ []) ∧
    (flushMetrics "r" [⟨10, "loss", 0.5⟩, ⟨20, "loss", 0.4⟩]).1 =
      [NetCall.postMetrics "r"
        (List.take 100 [⟨10, "loss", 0.5⟩, ⟨20, "loss", 0.4⟩])] ∧
    (flushMetrics "r" [⟨10, "loss", 0.5⟩, ⟨20, "loss", 0.4⟩]).2 =
      List.drop 100 [⟨10, "loss", 0.5⟩, ⟨20, "loss", 0.4⟩] := by
  have h := (flushMetrics_caps_batch "r"
    [⟨10, "loss", 0.5⟩, ⟨20, "loss", 0.4⟩]).2.2 (by simp)
  exact ⟨by simp, h.1, h.2.2.1⟩

/-! ## Claim C8 -/

/-- Claim C8: a log flush drains the queue completely, in FIFO submission
order, attempting one outbound call per entry; a failed entry is locally
logged (one error line per failure) and dropped without re-queuing, while
the remaining entries are still attempted — the attempted calls are
exactly the queue contents in order, never reordered. -/
theorem flushLogs_fifo (runId : String) (sendOk : String → Bool)
    (q : List String) :
    (flushLogs runId sendOk q).1 = q.map (NetCall.postLog runId) ∧
    (flushLogs runId sendOk q).2.2 = [] ∧
    (flushLogs runId sendOk q).2.1.length =
      (q.filter (fun m => !sendOk m)).length :=
  ⟨flushLogs_calls runId sendOk q, flushLogs_drains runId sendOk q,
   flushLogs_errs runId sendOk q⟩

/-! ## Claim C6 -/

/-- Claim C6: remote command application is edge-triggered and idempotent:
applying the same polled command twice in a row changes nothing and logs
nothing the second time; `stop` creates the Stop flag (logging exactly one
transition line when it was absent, a silent no-op when present), `pause`
creates the Pause flag likewise, `resume` removes the Pause flag (logging
exactly once when it was present, a silent no-op when absent), and an
empty poll result changes nothing. -/
theorem applyCommand_edge_triggered (cmd : Option Command)
    (fl : SignalFlags) :
    (applyCommand cmd (applyCommand cmd fl).1 =
      ((applyCommand cmd fl).1, [], [])) ∧
    ((applyCommand (some Command.stop) fl).1 =
      { fl with stopFile := true }) ∧
    (fl.stopFile = false →
      (applyCommand (some Command.stop) fl).2.1.length = 1 ∧
      (applyCommand (some Command.stop) fl).2.2.length = 1) ∧
    (fl.stopFile = true →
      applyCommand (some Command.stop) fl = (fl, [], [])) ∧
    ((applyCommand (some Command.pause) fl).1 =
      { fl with pauseFile := true }) ∧
    (fl.pauseFile = false →
      (applyCommand (some Command.pause) fl).2.1.length = 1 ∧
      (applyCommand (some Command.pause) fl).2.2.length = 1) ∧
    (fl.pauseFile = true →
      applyCommand (some Command.pause) fl = (fl, [], [])) ∧
    ((applyCommand (some Command.resume) fl).1 =
      { fl with pauseFile := false }) ∧
    (fl.pauseFile = true →
      (applyCommand (some Command.resume) fl).2.1.length = 1 ∧
      (applyCommand (some Command.resume) fl).2.2.length = 1) ∧
    (fl.pauseFile = false →
      applyCommand (some Command.resume) fl = (fl, [], [])) ∧
    (applyCommand none fl = (fl, [], [])) := by
  obtain ⟨s, p⟩ := fl
  cases cmd with
  | none => cases s <;> cases p <;> simp [applyCommand]
  | some c => cases c <;> cases s <;> cases p <;> simp [applyCommand]

/-- Witness for C6: polling `stop` twice in a row, starting from no signal
files, creates the Stop flag and logs the transition exactly once — the
second poll is a silent no-op. -/
theorem applyCommand_edge_triggered_witness :
    SignalFlags.stopFile { stopFile := false, pauseFile := false } = false ∧
    (applyCommand (some Command.stop)
      { stopFile := false, pauseFile := false }).2.1.length = 1 ∧
    (applyCommand (some Command.stop)
      (applyCommand (some Command.stop)
        { stopFile := false, pauseFile := false }).1) =
      ((applyCommand (some Command.stop)
        { stopFile := false, pauseFile := false }).1, [], []) := by
  refine ⟨rfl, ?_, ?_⟩
  · exact ((applyCommand_edge_triggered (some Command.stop)
      { stopFile := false, pauseFile := false }).2.2.1 rfl).1
  · exact (applyCommand_edge_triggered (some Command.stop)
      { stopFile := false, pauseFile := false }).1

/-! ## Claim C1 -/

/-- Claim C1 (amended): in offline mode — no run id, or missing
endpoint/credential — every public telemetry call attempts zero network
calls; `log_message` and `log_event` echo to the local console, but
`log_metric` and `log_progress` are silent no-ops producing no output at
all. -/
theorem offline_telemetry (st : KitState)
    (msg mname ename status : String) (mstep pstep : Int) (value : Float)
    (h : st.online = false) :
    (log_message st msg).2.1 = [] ∧
    (log_message st msg).2.2 = [msg] ∧
    (log_metric st mname mstep value).2.1 = [] ∧
    (log_metric st mname mstep value).2.2 = [] ∧
    (log_progress st pstep).2.1 = [] ∧
    (log_progress st pstep).2.2 = [] ∧
    (log_event st ename status).2.1 = [] ∧
    (log_event st ename status).2.2 = [s!"[EVENT] {ename} ({status})"] := by
  simp [log_message, log_metric, log_progress, log_event, h]

/-- Witness for C1: a client constructed without `KIT_RUN_ID` is offline;
its message and event calls print locally and none of the four calls
attempts a network request. -/
theorem offline_telemetry_witness :
    KitState.online offKit = false ∧
    ((log_message offKit "hi").2.1 = [] ∧
     (log_message offKit "hi").2.2 = ["hi"] ∧
     (log_metric offKit "loss" 1 0.5).2.1 = [] ∧
     (log_metric offKit "loss" 1 0.5).2.2 = [] ∧
     (log_progress offKit 7).2.1 = [] ∧
     (log_progress offKit 7).2.2 = [] ∧
     (log_event offKit "RUN_FINISHED" "success").2.1 = [] ∧
     (log_event offKit "RUN_FINISHED" "success").2.2 =
       [s!"[EVENT] RUN_FINISHED (success)"]) :=
  ⟨rfl, offline_telemetry offKit "hi" "loss" "RUN_FINISHED" "success" 1 7 0.5 rfl⟩

/-- Counterexample for C1 as stated: in offline mode `log_metric` (and
`log_progress`) attempt no network call but also produce no local console
output — the call vanishes silently, contradicting "instead produces
local console output". -/
theorem offline_telemetry_counterexample :
    (log_metric offKit "loss" 10 0.5).2.1 = [] ∧
    (log_metric offKit "loss" 10 0.5).2.2 = [] ∧
    (log_progress offKit 10).2.1 = [] ∧
    (log_progress offKit 10).2.2 = [] :=
  ⟨rfl, rfl, rfl, rfl⟩

/-! ## Claim C2 -/

/-- Claim C2 (amended): when the Stop and Pause flags are both observed at
the same boundary-aligned step, Pause is handled first — the gate blocks
on the pause flag (PAUSED event, sleep-poll wait, RESUMED event) and only
afterwards acts on the stop request, returning false: the trace is some
prefix, then the whole pause block, then the stop block. -/
theorem pause_handled_before_stop (s : StepState)
    (hp : s.pausePresent = true) (hs : s.stopPresent = true)
    (hal : s.numTimesteps % s.nSteps.getD 2048 = 0)
    (hw : s.writeOk = true) :
    ∃ pre, onStep s = Except.ok
      (false,
       pre ++ pauseActions s.agentPresent s.pauseWait s.numTimesteps ++
         stopActions s.agentPresent s.numTimesteps,
       (pctActions s).2) := by
  have h1 : ¬(s.agentPresent = true ∧ s.writeOk = false) := by simp [hw]
  refine ⟨[StepAction.setEnvProgress s.numTimesteps s.totalTimesteps] ++
    progressActions s ++ (pctActions s).1, ?_⟩
  rw [onStep_ok_stop s h1 ⟨hs, hal⟩]
  simp [stepBase, hp, List.append_assoc]

/-- Witness for C2: at step 30 with `n_steps = 10`, both flags present and
the pause flag clearing after two polls, the gate returns false with the
pause block preceding the stop block. -/
theorem pause_handled_before_stop_witness :
    ∃ pre, onStep bothFlagsState = Except.ok
      (false,
       pre ++ pauseActions bothFlagsState.agentPresent
         bothFlagsState.pauseWait bothFlagsState.numTimesteps ++
         stopActions bothFlagsState.agentPresent
           bothFlagsState.numTimesteps,
       (pctActions bothFlagsState).2) :=
  pause_handled_before_stop bothFlagsState rfl rfl rfl rfl

/-- Counterexample for C2 as stated: with both flags present at aligned
step 30, the gate does NOT act on the stop request first — it blocks in
the pause sleep-poll loop (a `pauseSleep` occurs, and the PAUSED event
strictly precedes the graceful-stop event in the trace) before returning
false. -/
theorem stop_precedence_counterexample :
    StepAction.pauseSleep 2 ∈ stepTrace bothFlagsState ∧
    (stepTrace bothFlagsState).indexOf
        (StepAction.emitEvent "TRAINING_PAUSED" "warning") <
      (stepTrace bothFlagsState).indexOf
        (StepAction.emitEvent "TRAINING_STOPPED_GRACEFULLY" "warning") ∧
    stepContinue bothFlagsState = some false := by
  refine ⟨?_, ?_, ?_⟩ <;> decide

/-! ## Claim C3 -/

/-- Claim C3 (amended): the step gate performs no exception handling of
its own — while `log_event` swallows network failures internally, a
failure of the `progress.log` write inside `BaseAgent.report_progress`
propagates as an exception out of `_on_step` to the calling training
loop. -/
theorem stepGate_write_failure_raises (s : StepState)
    (ha : s.agentPresent = true) (hw : s.writeOk = false) :
    onStep s = Except.error "IOError: failed to write progress.log" := by
  unfold onStep
  rw [if_pos ⟨ha, hw⟩]

/-- Witness for C3: a concrete gate call whose progress-file write fails
ends in a propagated exception. -/
theorem stepGate_write_failure_raises_witness :
    failingWriteState.agentPresent = true ∧
    failingWriteState.writeOk = false ∧
    onStep failingWriteState =
      Except.error "IOError: failed to write progress.log" :=
  ⟨rfl, rfl, stepGate_write_failure_raises failingWriteState rfl rfl⟩

/-- Counterexample for C3 as stated: the claim says a step-gate call never
raises to the training loop; at this concrete input (an unwritable
`progress.log`) the call raises instead of returning a continue flag. -/
theorem stepGate_never_raises_counterexample :
    onStep failingWriteState =
      Except.error "IOError: failed to write progress.log" ∧
    stepContinue failingWriteState = none :=
  ⟨rfl, rfl⟩

/-! ## Claim C4 -/

/-- Claim C4: with the Stop flag present (and the gate returning
normally), the gate returns false exactly when the current step count is a
multiple of the model's `n_steps`, returning true at every non-aligned
step; at an aligned step with an agent attached it also emits the
TRAINING_STOPPED_GRACEFULLY event. -/
theorem stop_gate_alignment (s : StepState) (n : Nat)
    (hn : s.nSteps = some n) (_hpos : 0 < n)
    (hstop : s.stopPresent = true) (hw : s.writeOk = true) :
    (stepContinue s = some false ↔ s.numTimesteps % n = 0) ∧
    (stepContinue s = some true ↔ ¬ s.numTimesteps % n = 0) ∧
    (s.numTimesteps % n = 0 → s.agentPresent = true →
      StepAction.emitEvent "TRAINING_STOPPED_GRACEFULLY" "warning" ∈
        stepTrace s) := by
  have h1 : ¬(s.agentPresent = true ∧ s.writeOk = false) := by simp [hw]
  have hg : s.nSteps.getD 2048 = n := by rw [hn]; rfl
  by_cases hc : s.numTimesteps % n = 0
  · have e := onStep_ok_stop s h1 ⟨hstop, by rw [hg]; exact hc⟩
    refine ⟨?_, ?_, ?_⟩
    · simp [stepContinue, e, hc]
    · simp [stepContinue, e, hc]
    · intro _ ha
      simp [stepTrace, e, stopActions, ha]
  · have e := onStep_ok_cont s h1 (by rw [hg]; tauto)
    refine ⟨?_, ?_, ?_⟩
    · simp [stepContinue, e, hc]
    · simp [stepContinue, e, hc]
    · intro h; exact absurd h hc

/-- Witness for C4: with granularity 10 and Stop requested, step 23 yields
continue = true, step 30 yields continue = false and emits the
graceful-stop event. -/
theorem stop_gate_alignment_witness :
    stepContinue (stopStateAt 30) = some false ∧
    stepContinue (stopStateAt 23) = some true ∧
    StepAction.emitEvent "TRAINING_STOPPED_GRACEFULLY" "warning" ∈
      stepTrace (stopStateAt 30) := by
  refine ⟨?_, ?_, ?_⟩
  · exact (stop_gate_alignment (stopStateAt 30) 10 rfl (by decide)
      rfl rfl).1.mpr (by decide)
  · exact (stop_gate_alignment (stopStateAt 23) 10 rfl (by decide)
      rfl rfl).2.1.mpr (by decide)
  · exact (stop_gate_alignment (stopStateAt 30) 10 rfl (by decide)
      rfl rfl).2.2 (by decide) rfl

/-! ## Claim C10 -/

/-- Claim C10: whenever the gate returns normally with an agent attached,
the relative progress step it reports equals
`max 0 (num_timesteps - offset)` and is therefore never negative, even
when the stage offset exceeds the current global timestep count. -/
theorem relative_progress_nonneg (s : StepState)
    (ha : s.agentPresent = true) (hw : s.writeOk = true) :
    StepAction.progressReport (relativeStep s.numTimesteps s.offset) ∈
      stepTrace s ∧
    relativeStep s.numTimesteps s.offset =
      max 0 ((s.numTimesteps : Int) - (s.offset : Int)) ∧
    0 ≤ relativeStep s.numTimesteps s.offset := by
  have h1 : ¬(s.agentPresent = true ∧ s.writeOk = false) := by simp [hw]
  refine ⟨?_, rfl, le_max_left 0 _⟩
  by_cases h2 : s.stopPresent = true ∧
      s.numTimesteps % s.nSteps.getD 2048 = 0
  · have e := onStep_ok_stop s h1 h2
    simp [stepTrace, e, stepBase, progressActions, ha]
  · have e := onStep_ok_cont s h1 h2
    simp [stepTrace, e, stepBase, progressActions, ha]

/-- Witness for C10: at global step 30 with stage offset 50, the reported
relative step is 0, not -20. -/
theorem relative_progress_nonneg_witness :
    StepAction.progressReport (relativeStep 30 50) ∈
      stepTrace offsetAheadState ∧
    relativeStep 30 50 = 0 := by
  refine ⟨?_, by decide⟩
  exact (relative_progress_nonneg offsetAheadState rfl rfl).1

/-! ## Claim C9 -/

/-- Claim C9 (amended): `shutdown()` is idempotent — only the first
invocation has effect, a repeat invocation (and any invocation on an
offline client or after the stop event is set) is a complete no-op — and
the first online invocation, after setting the worker's stop event, runs
one synchronous flush cycle on the calling thread: every queued log entry
is attempted in FIFO order, the latest queued progress update is
attempted, and up to 100 queued metric samples are attempted in one batch;
metric samples beyond the cap remain queued, unattempted. -/
theorem shutdown_idempotent_drain (sendOk : String → Bool) (st : KitState) :
    (shutdown sendOk (shutdown sendOk st).1 =
      ((shutdown sendOk st).1, [], [])) ∧
    (st.stopEventSet = true → shutdown sendOk st = (st, [], [])) ∧
    (st.online = true → st.stopEventSet = false →
      (shutdown sendOk st).1.stopEventSet = true ∧
      (shutdown sendOk st).1.logQueue = [] ∧
      (shutdown sendOk st).1.progressQueue = [] ∧
      (shutdown sendOk st).1.metricsQueue = st.metricsQueue.drop 100 ∧
      (shutdown sendOk st).2.1 =
        (flushMetrics (runIdStr st.cfg) st.metricsQueue).1 ++
        st.logQueue.map (NetCall.postLog (runIdStr st.cfg)) ++
        (flushProgress (runIdStr st.cfg) st.progressQueue).1) := by
  refine ⟨?_, ?_, ?_⟩
  · by_cases h : (st.online && !st.stopEventSet) = true
    · unfold shutdown
      rw [if_pos h]
      simp [KitState.online]
    · unfold shutdown
      rw [if_neg h, if_neg h]
  · intro h
    unfold shutdown
    rw [if_neg]
    simp [h]
  · intro ho hse
    have hc : (st.online && !st.stopEventSet) = true := by
      rw [ho, hse]; rfl
    unfold shutdown
    rw [if_pos hc]
    refine ⟨rfl, flushLogs_drains _ _ _, flushProgress_rem _ _,
      flushMetrics_rem _ _, ?_⟩
    simp [flushLogs_calls]

/-- Witness for C9: an online client with logs ["a", "b"] and progress
[5, 12, 19] queued: the first shutdown attempts both log entries in order
and the single latest progress step 19, empties those queues, and a second
shutdown is a no-op. -/
theorem shutdown_idempotent_drain_witness :
    KitState.online queuedKitState = true ∧
    KitState.stopEventSet queuedKitState = false ∧
    (shutdown (fun _ => true) queuedKitState).1.logQueue = [] ∧
    (shutdown (fun _ => true) queuedKitState).1.progressQueue = [] ∧
    (shutdown (fun _ => true) queuedKitState).2.1 =
      (flushMetrics (runIdStr queuedKitState.cfg)
        queuedKitState.metricsQueue).1 ++
      List.map (NetCall.postLog (runIdStr queuedKitState.cfg))
        queuedKitState.logQueue ++
      (flushProgress (runIdStr queuedKitState.cfg)
        queuedKitState.progressQueue).1 ∧
    shutdown (fun _ => true)
        (shutdown (fun _ => true) queuedKitState).1 =
      ((shutdown (fun _ => true) queuedKitState).1, [], []) := by
  have h := shutdown_idempotent_drain (fun _ => true) queuedKitState
  have hd := h.2.2 rfl rfl
  exact ⟨rfl, rfl, hd.2.1, hd.2.2.1, hd.2.2.2.2, h.1⟩

/-- Counterexample for C9 as stated: with 101 metric samples (steps
0..100) queued, the final synchronous drain attempts a single batch of the
first 100 samples only; the step-100 sample enqueued before the call
remains in the queue, never attempted, when shutdown returns. -/
theorem shutdown_attempts_all_counterexample :
    (shutdown (fun _ => true) bigMetricsState).1.metricsQueue =
      [⟨(100 : Int), "m", 0.5⟩] ∧
    (shutdown (fun _ => true) bigMetricsState).2.1 =
      [NetCall.postMetrics "r"
        ((List.range 100).map (fun i => ⟨(i : Int), "m", 0.5⟩))] := by
  constructor
  · rfl
  · rfl

